import Mathlib

/-!
Verification of the CasketsApp form-validation logic.

The repository is a collection of data-entry forms.  Each form declares a
zod schema; validation of a candidate record produces a list of issues,
each issue carrying a path (field names and array indices) and a message.
We embed the validation logic shallowly:

* JavaScript numbers are modelled as `Option ℚ`: `some q` is a finite
  number with exact rational value `q`, `none` is a non-finite value
  (`NaN` or an infinity).  Multiplication overflows to an infinity at
  the binary64 overflow threshold (`jsMul`); rounding of in-range
  products is not modelled, and the concrete scenarios proved below
  were checked to agree with IEEE-754 double evaluation.
* `Number.prototype.toFixed(2)` followed by `Number(...)` is modelled by
  `toFixed2`: rounding to two decimal places, ties away from zero, which
  is the ECMAScript `toFixed` rounding rule.
* zod parsing is modelled per schema by a function returning the list of
  issues; an empty list means the record is accepted.  A failed enum,
  union or literal parse aborts the enclosing object, which skips the
  `.refine` / `.superRefine` checks, exactly as zod does; non-fatal
  checks (string `min`, number `int` and `min`) add an issue and
  continue.
-/

/-- One segment of an issue path: an object field or an array index. -/
inductive PathSeg where
  | fld (s : String)
  | idx (n : Nat)
deriving DecidableEq, Repr

/-- A validation issue: a path into the record and a message. -/
structure Issue where
  path : List PathSeg
  message : String
deriving DecidableEq, Repr

/-- Re-root a list of issues below a path, as zod does when it
reports issues of a nested schema. -/
def withPath (p : List PathSeg) (issues : List Issue) : List Issue :=
  issues.map (fun i => ⟨p ++ i.path, i.message⟩)

/-- JavaScript `String.prototype.trim()`: drop whitespace from both
ends (computed on the character list so that concrete instances
evaluate by `decide`). -/
def jsTrim (s : String) : String :=
  ⟨((s.data.dropWhile Char.isWhitespace).reverse.dropWhile Char.isWhitespace).reverse⟩

/-- Emit a single issue when a failure condition holds. -/
def condIssue (c : Prop) [Decidable c] (i : Issue) : List Issue :=
  if c then [i] else []

theorem condIssue_eq_nil {c : Prop} [Decidable c] {i : Issue} :
    condIssue c i = [] ↔ ¬c := by
  by_cases h : c <;> simp [condIssue, h]

theorem mem_condIssue {c : Prop} [Decidable c] {i : Issue} (h : c) :
    i ∈ condIssue c i := by
  simp [condIssue, h]

/-- `Number(x.toFixed(2))` from `src/Stock_Receipt.tsx`: round to two
decimal places with ties away from zero (the ECMAScript `toFixed`
rule: the sign is stripped first and ties pick the larger candidate). -/
def toFixed2 (x : ℚ) : ℚ :=
  if x < 0 then -((⌊100 * (-x) + 1/2⌋ : ℚ) / 100)
  else ((⌊100 * x + 1/2⌋ : ℚ) / 100)

/-- A JavaScript number: `some q` if finite with value `q`, `none` if
`NaN` or an infinity. -/
abbrev Jsnum : Type := Option ℚ

/-- `Number.isFinite(v) ? v : 0` from `calcTotalCost`. -/
def finiteOrZero : Jsnum → ℚ
  | some q => q
  | none => 0

/-- The binary64 overflow threshold: an exactly computed product whose
magnitude reaches `2^1024 - 2^970` rounds (to nearest, ties to even) to
an infinity, since the largest finite double is `2^1024 - 2^971`. -/
def DBL_OVERFLOW : ℚ := 2 ^ 1024 - 2 ^ 970

/-- The JavaScript product `a * b` of two finite doubles: an infinity
(`none`) when the exact product reaches the binary64 overflow
threshold, otherwise the exact product (rounding of in-range products
is not modelled). -/
def jsMul (a b : ℚ) : Jsnum :=
  if DBL_OVERFLOW ≤ a * b ∨ a * b ≤ -DBL_OVERFLOW then none else some (a * b)

/-- `calcTotalCost` from `src/Stock_Receipt.tsx`: substitute zero for
non-finite inputs, multiply, round to 2 dp.  When the product
overflows, `toFixed(2)` yields `"Infinity"` (or `"-Infinity"`) and
`Number` turns it back into the non-finite value, so the result is
`none`. -/
def calcTotalCost (qty unitPrice : Jsnum) : Jsnum :=
  (jsMul (finiteOrZero qty) (finiteOrZero unitPrice)).map toFixed2

theorem toFixed2_zero : toFixed2 0 = 0 := by
  norm_num [toFixed2]

/-- C2: the derived-value calculator returns exactly the pinned outputs:
`calcTotalCost(10, 5) = 50`, `calcTotalCost(3, 2.345) = 7.04` (the
rounding case), and non-finite inputs are substituted by zero:
`calcTotalCost(NaN, 10) = 0`, `calcTotalCost(2, NaN) = 0`. -/
theorem calcTotalCost_pinned_scenarios :
    calcTotalCost (some 10) (some 5) = some 50 ∧
    calcTotalCost (some 3) (some (2345/1000)) = some (704/100) ∧
    calcTotalCost none (some 10) = some 0 ∧
    calcTotalCost (some 2) none = some 0 := by
  refine ⟨?_, ?_, ?_, ?_⟩ <;>
    norm_num [calcTotalCost, finiteOrZero, jsMul, DBL_OVERFLOW, toFixed2]

/-- C3 counterexample: `calcTotalCost` does not always return a finite
number.  At the finite inputs `1e200` and `1e200` the double product
overflows, `toFixed(2)` yields `"Infinity"`, and the result is the
non-finite `Infinity`. -/
theorem calcTotalCost_overflow_counterexample :
    calcTotalCost (some (10 ^ 200)) (some (10 ^ 200)) = none ∧
    (calcTotalCost (some (10 ^ 200)) (some (10 ^ 200))).isSome = false := by
  constructor <;> norm_num [calcTotalCost, finiteOrZero, jsMul, DBL_OVERFLOW]

/-- C3 (amended): `calcTotalCost` is deterministic and never throws, it
maps a zero quantity or zero price to zero for every finite companion
value, and it returns a finite number whenever the product of the
(zero-substituted) inputs stays below the binary64 overflow threshold;
a product beyond that threshold yields an infinity, not a finite
number. -/
theorem calcTotalCost_total_and_zero_laws :
    (∀ p : ℚ, calcTotalCost (some 0) (some p) = some 0) ∧
    (∀ q : ℚ, calcTotalCost (some q) (some 0) = some 0) ∧
    (∀ a b : Jsnum, -DBL_OVERFLOW < finiteOrZero a * finiteOrZero b →
      finiteOrZero a * finiteOrZero b < DBL_OVERFLOW →
      (calcTotalCost a b).isSome = true) := by
  have hpos : (0 : ℚ) < DBL_OVERFLOW := by norm_num [DBL_OVERFLOW]
  refine ⟨fun p => ?_, fun q => ?_, fun a b h1 h2 => ?_⟩
  · simp [calcTotalCost, finiteOrZero, jsMul, toFixed2_zero,
      not_le.mpr hpos, not_le.mpr (neg_neg_iff_pos.mpr hpos)]
  · simp [calcTotalCost, finiteOrZero, jsMul, toFixed2_zero,
      not_le.mpr hpos, not_le.mpr (neg_neg_iff_pos.mpr hpos)]
  · rw [calcTotalCost, jsMul, if_neg (not_or.mpr ⟨not_le.mpr h2, not_le.mpr h1⟩)]
    rfl

/-- Witness for the amended C3: the finiteness conjunct applied at the
concrete pair `(2, NaN)`, whose zero-substituted product is in range,
and a zero law applied at `p = 5`. -/
theorem calcTotalCost_total_and_zero_laws_witness :
    (calcTotalCost (some 2) none).isSome = true ∧
    calcTotalCost (some 0) (some 5) = some 0 := by
  refine ⟨calcTotalCost_total_and_zero_laws.2.2 (some 2) none ?_ ?_,
    calcTotalCost_total_and_zero_laws.1 5⟩ <;>
    norm_num [finiteOrZero, DBL_OVERFLOW]

/-!
## Stock receipt (`stockReceiveSchema`, `src/Stock_Receipt.tsx`)

`quantityReceived` must be a whole positive number, `unitPrice` and
`totalCost` non-negative, `location` a non-empty string.  All checks are
non-fatal, so every failing field contributes its issue.
-/

structure StockReceive where
  quantityReceived : ℚ
  unitPrice : ℚ
  totalCost : ℚ
  location : String

/-- Issues produced by `stockReceiveSchema.safeParse` on a
structurally well-typed record. -/
def stockReceiveIssues (r : StockReceive) : List Issue :=
  condIssue (¬(⌊r.quantityReceived⌋ : ℚ) = r.quantityReceived)
      ⟨[.fld "quantityReceived"], "Must be a whole number"⟩
  ++ condIssue (¬0 < r.quantityReceived)
      ⟨[.fld "quantityReceived"], "Must be greater than 0"⟩
  ++ condIssue (r.unitPrice < 0)
      ⟨[.fld "unitPrice"], "Cannot be negative"⟩
  ++ condIssue (r.totalCost < 0)
      ⟨[.fld "totalCost"], "Number must be greater than or equal to 0"⟩
  ++ condIssue (r.location.length < 1)
      ⟨[.fld "location"], "Select a location"⟩

/-- C5: the stock-receipt schema rejects a zero quantity, rejects the
non-integer quantity `5.5`, rejects an empty location regardless of the
other fields, and accepts the record
`{quantityReceived: 2, unitPrice: 1.5, totalCost: 3, location: "MAIN_WH"}`. -/
theorem stockReceive_scenarios :
    (∀ t : ℚ, stockReceiveIssues ⟨0, 3/2, t, "MAIN_WH"⟩ ≠ []) ∧
    (∀ p t : ℚ, ∀ loc : String, stockReceiveIssues ⟨11/2, p, t, loc⟩ ≠ []) ∧
    (∀ q p t : ℚ, stockReceiveIssues ⟨q, p, t, ""⟩ ≠ []) ∧
    stockReceiveIssues ⟨2, 3/2, 3, "MAIN_WH"⟩ = [] := by
  refine ⟨fun t h => ?_, fun p t loc h => ?_, fun q p t h => ?_, ?_⟩
  · rw [stockReceiveIssues] at h
    simp only [List.append_eq_nil, condIssue_eq_nil] at h
    exact h.1.1.1.2 (by norm_num)
  · rw [stockReceiveIssues] at h
    simp only [List.append_eq_nil, condIssue_eq_nil] at h
    exact h.1.1.1.1 (by norm_num)
  · rw [stockReceiveIssues] at h
    simp only [List.append_eq_nil, condIssue_eq_nil] at h
    exact h.2 (by norm_num)
  · rw [stockReceiveIssues]
    norm_num [condIssue_eq_nil, condIssue]
    decide

/-!
## Employment details (`EmploymentDetailsSchema`, `src/Stock_Receipt.tsx`)

The schema validates the employee id (trimmed, 1..32 characters), the
primary role and every secondary role against the occupation list, the
joining date, and three further enumerations; a `superRefine` then walks
`secondaryRoles` with a seen-set and reports the first duplicate.  A
failed enum or date parse aborts the object and skips the refinements.
-/

def OCCUPATIONS : List String :=
  ["Receptionist", "Carpenter", "Machinist", "Surface Finisher", "Painter",
   "Upholsterer", "Sewing Machine Operator", "Liner Installer",
   "Production Supervisor", "Assembly Line Worker", "Quality Control Inspector",
   "Maintenance Technician", "Health & Safety Officer", "Warehouse Manager",
   "Packaging Specialist", "Delivery Driver", "Sales Consultant",
   "Marketing Coordinator", "General Manager", "Procurement Officer",
   "Administrative Assistant", "CAD Technician", "Graphic Designer", "Other"]

def EMPLOYMENT_TYPES : List String := ["Full-time", "Part-time", "Contract", "Intern"]

def WORK_LOCATIONS : List String :=
  ["Mutapa Store", "Mutapa Workshop", "Shurugwi Road Workshop", "Other"]

def STATUS_TYPES : List String := ["Active", "On Leave", "Resigned", "Retired", "Other"]

/-- An employment-details record; `dateOfJoiningDate` is `some`
timestamp for a valid `Date` and `none` for an invalid one. -/
structure EmploymentDetails where
  employeeId : String
  primaryRole : String
  secondaryRoles : List String
  dateOfJoiningDate : Option Int
  employmentType : String
  workLocation : String
  status : String

/-- Issue produced by `z.enum(opts)` when the value is not a member. -/
def enumIssues (field : String) (opts : List String) (v : String) : List Issue :=
  condIssue (v ∉ opts) ⟨[.fld field], "Invalid enum value"⟩

/-- Issues of `z.array(z.enum(opts))`, indexed from `i`. -/
def enumArrayIssues (field : String) (opts : List String) : Nat → List String → List Issue
  | _, [] => []
  | i, v :: rest =>
    condIssue (v ∉ opts) ⟨[.fld field, .idx i], "Invalid enum value"⟩
      ++ enumArrayIssues field opts (i + 1) rest

/-- The seen-set duplicate walk of `EmploymentDetailsSchema.superRefine`. -/
def hasDupSeen : List String → List String → Bool
  | [], _ => false
  | r :: rest, seen => if r ∈ seen then true else hasDupSeen rest (r :: seen)

/-- The object parse aborts (and the refinements are skipped) when an
enum field or the date fails to parse. -/
def employmentAborted (r : EmploymentDetails) : Prop :=
  r.primaryRole ∉ OCCUPATIONS ∨ (∃ x ∈ r.secondaryRoles, x ∉ OCCUPATIONS) ∨
  r.dateOfJoiningDate = none ∨ r.employmentType ∉ EMPLOYMENT_TYPES ∨
  r.workLocation ∉ WORK_LOCATIONS ∨ r.status ∉ STATUS_TYPES

instance (r : EmploymentDetails) : Decidable (employmentAborted r) := by
  unfold employmentAborted; infer_instance

/-- Issues produced by `EmploymentDetailsSchema.safeParse` on a
structurally well-typed record. -/
def employmentDetailsIssues (r : EmploymentDetails) : List Issue :=
  (condIssue ((jsTrim r.employeeId).length < 1) ⟨[.fld "employeeId"], "Employee ID is required"⟩
    ++ condIssue (32 < (jsTrim r.employeeId).length) ⟨[.fld "employeeId"], "Employee ID is too long"⟩)
  ++ enumIssues "primaryRole" OCCUPATIONS r.primaryRole
  ++ enumArrayIssues "secondaryRoles" OCCUPATIONS 0 r.secondaryRoles
  ++ condIssue (r.dateOfJoiningDate = none) ⟨[.fld "dateOfJoiningDate"], "Invalid date"⟩
  ++ enumIssues "employmentType" EMPLOYMENT_TYPES r.employmentType
  ++ enumIssues "workLocation" WORK_LOCATIONS r.workLocation
  ++ enumIssues "status" STATUS_TYPES r.status
  ++ (if employmentAborted r then []
      else
        condIssue (hasDupSeen r.secondaryRoles [] = true)
          ⟨[.fld "secondaryRoles"], "Duplicate secondary roles are not allowed"⟩
        ++ condIssue (r.dateOfJoiningDate = none) ⟨[.fld "dateOfJoiningDate"], "Invalid date"⟩)

theorem hasDupSeen_of_mem :
    ∀ (l seen : List String) (x : String), x ∈ seen → x ∈ l → hasDupSeen l seen = true := by
  intro l
  induction l with
  | nil => intro seen x _ hl; simp at hl
  | cons a rest ih =>
    intro seen x hs hl
    by_cases hc : a ∈ seen
    · simp [hasDupSeen, hc]
    · rcases List.mem_cons.mp hl with h | h
      · exact absurd (h ▸ hs) hc
      · simpa [hasDupSeen, hc] using ih (a :: seen) x (List.mem_cons_of_mem _ hs) h

theorem hasDupSeen_of_two :
    ∀ (l seen : List String) (x : String), 2 ≤ l.count x → hasDupSeen l seen = true := by
  intro l
  induction l with
  | nil => intro seen x h; simp [List.count_nil] at h
  | cons a rest ih =>
    intro seen x h
    by_cases hc : a ∈ seen
    · simp [hasDupSeen, hc]
    · simp only [hasDupSeen, hc, if_false]
      by_cases hx : a = x
      · subst hx
        have h1 : 1 ≤ rest.count a := by
          have := List.count_cons_self a rest
          omega
        have hmem : a ∈ rest := by
          have := List.count_pos_iff.mp (by omega : 0 < rest.count a)
          exact this
        exact hasDupSeen_of_mem rest (a :: seen) a (List.mem_cons_self a seen) hmem
      · have : rest.count x = (a :: rest).count x := by
          rw [List.count_cons]
          simp [hx]
        exact ih (a :: seen) x (by omega)

theorem enumArrayIssues_eq_nil {field : String} {opts : List String} :
    ∀ (l : List String) (i : Nat), enumArrayIssues field opts i l = [] → ∀ x ∈ l, x ∈ opts := by
  intro l
  induction l with
  | nil => simp
  | cons a rest ih =>
    intro i h x hx
    simp only [enumArrayIssues, List.append_eq_nil, condIssue_eq_nil] at h
    rcases List.mem_cons.mp hx with hxa | hxr
    · subst hxa; exact not_not.mp h.1
    · exact ih (i + 1) h.2 x hxr

/-- C6: the employment-details schema rejects every record whose
`secondaryRoles` contains the same occupation more than once, while a
record whose `secondaryRoles` holds a single occurrence of the
`primaryRole` itself (all other fields valid) is accepted. -/
theorem employment_secondary_role_duplicates :
    (∀ (r : EmploymentDetails) (x : String), x ∈ OCCUPATIONS →
        2 ≤ r.secondaryRoles.count x → employmentDetailsIssues r ≠ []) ∧
    (∀ r : EmploymentDetails,
        1 ≤ (jsTrim r.employeeId).length → (jsTrim r.employeeId).length ≤ 32 →
        r.primaryRole ∈ OCCUPATIONS → r.secondaryRoles = [r.primaryRole] →
        (∃ t, r.dateOfJoiningDate = some t) →
        r.employmentType ∈ EMPLOYMENT_TYPES → r.workLocation ∈ WORK_LOCATIONS →
        r.status ∈ STATUS_TYPES →
        employmentDetailsIssues r = []) := by
  constructor
  · intro r x _ hcount h
    rw [employmentDetailsIssues] at h
    simp only [List.append_eq_nil, condIssue_eq_nil] at h
    obtain ⟨⟨⟨⟨⟨⟨⟨⟨_, _⟩, hprim⟩, hsec⟩, hdate⟩, htype⟩, hloc⟩, hstat⟩, hlast⟩ := h
    have hnab : ¬employmentAborted r := by
      rw [employmentAborted]
      push_neg
      refine ⟨?_, ?_, ?_, ?_, ?_, ?_⟩
      · simpa [enumIssues, condIssue_eq_nil] using hprim
      · intro y hy
        exact enumArrayIssues_eq_nil r.secondaryRoles 0 hsec y hy
      · exact hdate
      · simpa [enumIssues, condIssue_eq_nil] using htype
      · simpa [enumIssues, condIssue_eq_nil] using hloc
      · simpa [enumIssues, condIssue_eq_nil] using hstat
    rw [if_neg hnab] at hlast
    simp only [List.append_eq_nil, condIssue_eq_nil] at hlast
    exact hlast.1 (hasDupSeen_of_two r.secondaryRoles [] x hcount)
  · intro r hlen1 hlen2 hprim hsec hdate htype hloc hstat
    obtain ⟨t, ht⟩ := hdate
    have hnab : ¬employmentAborted r := by
      rw [employmentAborted]
      push_neg
      refine ⟨hprim, fun y hy => ?_, by simp [ht], htype, hloc, hstat⟩
      rw [hsec, List.mem_singleton] at hy
      exact hy ▸ hprim
    rw [employmentDetailsIssues, if_neg hnab]
    simp [condIssue_eq_nil, enumIssues, enumArrayIssues, hsec, hprim, htype, hloc, hstat,
      ht, hasDupSeen, condIssue]
    omega

/-- Witness for C6: the concrete duplicate record
`secondaryRoles = ["Painter", "Painter"]` is rejected, and the concrete
record with `secondaryRoles = [primaryRole] = ["Painter"]` is accepted. -/
theorem employment_secondary_role_duplicates_witness :
    employmentDetailsIssues
      ⟨"EMP-001", "Painter", ["Painter", "Painter"], some 0,
        "Full-time", "Mutapa Store", "Active"⟩ ≠ [] ∧
    employmentDetailsIssues
      ⟨"EMP-001", "Painter", ["Painter"], some 0,
        "Full-time", "Mutapa Store", "Active"⟩ = [] := by
  constructor
  · exact employment_secondary_role_duplicates.1 _ "Painter" (by simp [OCCUPATIONS])
      (by simp)
  · exact employment_secondary_role_duplicates.2 _ (by decide) (by decide)
      (by simp [OCCUPATIONS]) rfl ⟨0, rfl⟩ (by simp [EMPLOYMENT_TYPES])
      (by simp [WORK_LOCATIONS]) (by simp [STATUS_TYPES])

/-!
## Production order (`schema`, `src/Production_Order.tsx`) and the
## structurally identical order form in `src/unnamed/part_000`

Enumerated fields use `enumOrEmpty` (`z.union([z.enum(vals),
z.literal("")])`): the empty string parses, any other non-member aborts
the enclosing object, skipping its `.refine` chain.  `baseQuantity`
(`Production_Order.tsx`) requires an integer of at least 1 with
non-fatal checks; `part_000` instead uses `z.literal(1)`, whose
mismatch aborts the line item.
-/

def ASSIGNED_TO : List String := ["Workshop Team", "Support Team", "Other"]

def REQUESTED_BY : List String := ["Director", "Manager", "Other"]

def SIZES_COMMON : List String :=
  ["Adult", "60\"", "48\"", "38\"", "30\"", "24\"", "Stillbirth", "Other"]

def COLORS : List String := ["White", "Brown", "Other"]

def FLAT_MATERIALS : List String := ["Superwood", "Zimtex/Superwood"]

def FLAT_TIERS : List String := ["Flat", "1 Tier", "2 Tier", "3 Tier"]

def FLAT_SIZES : List String :=
  ["Adult", "Jumbo", "60\"", "48\"", "38\"", "30\"", "24\"", "Stillbirth", "Other"]

def DOME_MATERIALS : List String := ["Superwood", "Zimtex/Superwood"]

def DOME_SIZES : List String := ["Adult", "Other"]

def DURATION_UNITS : List String := ["Hours", "Days", "Weeks", "Months"]

/-- `enumOrEmpty(opts)` accepts a member of `opts` or the empty string. -/
def enumOrEmptyOk (opts : List String) (v : String) : Prop := v ∈ opts ∨ v = ""

instance (opts : List String) (v : String) : Decidable (enumOrEmptyOk opts v) := by
  unfold enumOrEmptyOk; infer_instance

/-- Issue of `enumOrEmpty(opts)` on a non-member, non-empty value
(zod reports `invalid_union` and aborts the enclosing object). -/
def enumOrEmptyIssues (field : String) (opts : List String) (v : String) : List Issue :=
  condIssue (¬enumOrEmptyOk opts v) ⟨[.fld field], "Invalid input"⟩

/-- `baseQuantity` from `src/Production_Order.tsx`: an integer of at
least 1; both checks are non-fatal. -/
def baseQuantityIssues (q : ℚ) : List Issue :=
  condIssue (¬(⌊q⌋ : ℚ) = q) ⟨[.fld "quantity"], "Quantity must be an integer"⟩
  ++ condIssue (q < 1) ⟨[.fld "quantity"], "Min quantity is 1"⟩

structure JobSpec where
  expectedStartDate : String
  expectedStartTime : String
  expectedDurationValue : ℚ
  expectedDurationUnit : String
  assignedTo : String
  assignedToOther : String
  requestedBy : String
  requestedByOther : String

/-- The `job` object parse aborts when one of its `enumOrEmpty` fields
holds a non-member, non-empty value; the `.refine` chain is then
skipped. -/
def jobAborted (j : JobSpec) : Prop :=
  ¬enumOrEmptyOk DURATION_UNITS j.expectedDurationUnit ∨
  ¬enumOrEmptyOk ASSIGNED_TO j.assignedTo ∨
  ¬enumOrEmptyOk REQUESTED_BY j.requestedBy

instance (j : JobSpec) : Decidable (jobAborted j) := by
  unfold jobAborted; infer_instance

/-- Issues of the `job` sub-schema (paths relative to `job`). -/
def jobIssues (j : JobSpec) : List Issue :=
  condIssue (j.expectedStartDate.length < 1) ⟨[.fld "expectedStartDate"], "Date is required"⟩
  ++ condIssue (j.expectedStartTime.length < 1) ⟨[.fld "expectedStartTime"], "Time is required"⟩
  ++ condIssue (j.expectedDurationValue < 1) ⟨[.fld "expectedDurationValue"], "Duration is required"⟩
  ++ enumOrEmptyIssues "expectedDurationUnit" DURATION_UNITS j.expectedDurationUnit
  ++ enumOrEmptyIssues "assignedTo" ASSIGNED_TO j.assignedTo
  ++ enumOrEmptyIssues "requestedBy" REQUESTED_BY j.requestedBy
  ++ (if jobAborted j then []
      else
        condIssue (j.expectedDurationUnit = "")
          ⟨[.fld "expectedDurationUnit"], "Please select a duration unit."⟩
        ++ condIssue (j.assignedTo = "")
          ⟨[.fld "assignedTo"], "Please select the assignee team."⟩
        ++ condIssue (j.requestedBy = "")
          ⟨[.fld "requestedBy"], "Please select who requested."⟩
        ++ condIssue (j.assignedTo = "Other" ∧ jsTrim j.assignedToOther = "")
          ⟨[.fld "assignedToOther"], "Please specify who it\x27s assigned to."⟩
        ++ condIssue (j.requestedBy = "Other" ∧ jsTrim j.requestedByOther = "")
          ⟨[.fld "requestedByOther"], "Please specify who requested."⟩)

structure CoffinFish where
  fishType : String
  size : String
  sizeOther : String
  color : String
  colorOther : String
  quantity : ℚ

def coffinFishAborted (it : CoffinFish) : Prop :=
  ¬enumOrEmptyOk SIZES_COMMON it.size ∨ ¬enumOrEmptyOk COLORS it.color

instance (it : CoffinFish) : Decidable (coffinFishAborted it) := by
  unfold coffinFishAborted; infer_instance

/-- Issues of one `coffinFishes` line item (paths relative to it). -/
def coffinFishIssues (it : CoffinFish) : List Issue :=
  condIssue (it.fishType.length < 1) ⟨[.fld "fishType"], "Fish type is required"⟩
  ++ enumOrEmptyIssues "size" SIZES_COMMON it.size
  ++ enumOrEmptyIssues "color" COLORS it.color
  ++ baseQuantityIssues it.quantity
  ++ (if coffinFishAborted it then []
      else
        condIssue (it.size = "") ⟨[.fld "size"], "Please select a size."⟩
        ++ condIssue (it.color = "") ⟨[.fld "color"], "Please select a color."⟩
        ++ condIssue (it.size = "Other" ∧ jsTrim it.sizeOther = "")
          ⟨[.fld "sizeOther"], "Please specify the size."⟩
        ++ condIssue (it.color = "Other" ∧ jsTrim it.colorOther = "")
          ⟨[.fld "colorOther"], "Please specify the color."⟩)

structure FlatCasket where
  material : String
  tier : String
  size : String
  sizeOther : String
  color : String
  colorOther : String
  quantity : ℚ

def flatCasketAborted (it : FlatCasket) : Prop :=
  ¬enumOrEmptyOk FLAT_MATERIALS it.material ∨ ¬enumOrEmptyOk FLAT_TIERS it.tier ∨
  ¬enumOrEmptyOk FLAT_SIZES it.size ∨ ¬enumOrEmptyOk COLORS it.color

instance (it : FlatCasket) : Decidable (flatCasketAborted it) := by
  unfold flatCasketAborted; infer_instance

/-- The `.refine` chain shared by both flat-casket schemas. -/
def flatCasketRefineIssues (it : FlatCasket) : List Issue :=
  condIssue (it.material = "") ⟨[.fld "material"], "Please select material."⟩
  ++ condIssue (it.tier = "") ⟨[.fld "tier"], "Please select tier."⟩
  ++ condIssue (it.size = "") ⟨[.fld "size"], "Please select size."⟩
  ++ condIssue (it.color = "") ⟨[.fld "color"], "Please select color."⟩
  ++ condIssue (it.size = "Other" ∧ jsTrim it.sizeOther = "")
    ⟨[.fld "sizeOther"], "Please specify the size."⟩
  ++ condIssue (it.color = "Other" ∧ jsTrim it.colorOther = "")
    ⟨[.fld "colorOther"], "Please specify the color."⟩

/-- Issues of one `flatCaskets` line item in `src/Production_Order.tsx`
(quantity is `baseQuantity`). -/
def flatCasketIssues (it : FlatCasket) : List Issue :=
  enumOrEmptyIssues "material" FLAT_MATERIALS it.material
  ++ enumOrEmptyIssues "tier" FLAT_TIERS it.tier
  ++ enumOrEmptyIssues "size" FLAT_SIZES it.size
  ++ enumOrEmptyIssues "color" COLORS it.color
  ++ baseQuantityIssues it.quantity
  ++ (if flatCasketAborted it then [] else flatCasketRefineIssues it)

/-- Issues of one `flatCaskets` line item in `src/unnamed/part_000`:
`quantity` there is `z.literal(1)`, whose mismatch is fatal and also
aborts the item, skipping its refinements. -/
def p0FlatItemIssues (it : FlatCasket) : List Issue :=
  enumOrEmptyIssues "material" FLAT_MATERIALS it.material
  ++ enumOrEmptyIssues "tier" FLAT_TIERS it.tier
  ++ enumOrEmptyIssues "size" FLAT_SIZES it.size
  ++ enumOrEmptyIssues "color" COLORS it.color
  ++ condIssue (¬it.quantity = 1) ⟨[.fld "quantity"], "Invalid literal value, expected 1"⟩
  ++ (if flatCasketAborted it ∨ ¬it.quantity = 1 then [] else flatCasketRefineIssues it)

structure DomeCasket where
  material : String
  size : String
  sizeOther : String
  color : String
  colorOther : String
  quantity : ℚ

def domeCasketAborted (it : DomeCasket) : Prop :=
  ¬enumOrEmptyOk DOME_MATERIALS it.material ∨ ¬enumOrEmptyOk DOME_SIZES it.size ∨
  ¬enumOrEmptyOk COLORS it.color

instance (it : DomeCasket) : Decidable (domeCasketAborted it) := by
  unfold domeCasketAborted; infer_instance

/-- Issues of one `domeCaskets` line item (paths relative to it). -/
def domeCasketIssues (it : DomeCasket) : List Issue :=
  enumOrEmptyIssues "material" DOME_MATERIALS it.material
  ++ enumOrEmptyIssues "size" DOME_SIZES it.size
  ++ enumOrEmptyIssues "color" COLORS it.color
  ++ baseQuantityIssues it.quantity
  ++ (if domeCasketAborted it then []
      else
        condIssue (it.material = "") ⟨[.fld "material"], "Please select material."⟩
        ++ condIssue (it.size = "") ⟨[.fld "size"], "Please select size."⟩
        ++ condIssue (it.color = "") ⟨[.fld "color"], "Please select color."⟩
        ++ condIssue (it.size = "Other" ∧ jsTrim it.sizeOther = "")
          ⟨[.fld "sizeOther"], "Please specify the size."⟩
        ++ condIssue (it.color = "Other" ∧ jsTrim it.colorOther = "")
          ⟨[.fld "colorOther"], "Please specify the color."⟩)

/-- Issues of a `z.array` of line items, each re-rooted below its
index (indexing starts at `k`). -/
def idxIssues (f : α → List Issue) (field : String) : Nat → List α → List Issue
  | _, [] => []
  | k, a :: rest => withPath [.fld field, .idx k] (f a) ++ idxIssues f field (k + 1) rest

structure ProductionOrder where
  job : JobSpec
  coffinFishes : List CoffinFish
  flatCaskets : List FlatCasket
  domeCaskets : List DomeCasket

/-- Issues produced by the production-order `schema.safeParse` on a
structurally well-typed record. -/
def productionOrderIssues (r : ProductionOrder) : List Issue :=
  withPath [.fld "job"] (jobIssues r.job)
  ++ (condIssue (r.coffinFishes.length < 1)
        ⟨[.fld "coffinFishes"], "Add at least one Coffin (Fish) item"⟩
      ++ idxIssues coffinFishIssues "coffinFishes" 0 r.coffinFishes)
  ++ (condIssue (r.flatCaskets.length < 1)
        ⟨[.fld "flatCaskets"], "Add at least one Flat Casket"⟩
      ++ idxIssues flatCasketIssues "flatCaskets" 0 r.flatCaskets)
  ++ (condIssue (r.domeCaskets.length < 1)
        ⟨[.fld "domeCaskets"], "Add at least one Dome Casket"⟩
      ++ idxIssues domeCasketIssues "domeCaskets" 0 r.domeCaskets)

theorem mem_withPath {p : List PathSeg} {x : Issue} {issues : List Issue} (h : x ∈ issues) :
    (⟨p ++ x.path, x.message⟩ : Issue) ∈ withPath p issues :=
  List.mem_map_of_mem _ h

theorem mem_idxIssues {α : Type} (f : α → List Issue) (field : String) :
    ∀ (l : List α) (k i : Nat) (a : α), l[i]? = some a → ∀ x ∈ f a,
      (⟨[PathSeg.fld field, PathSeg.idx (k + i)] ++ x.path, x.message⟩ : Issue) ∈
        idxIssues f field k l := by
  intro l
  induction l with
  | nil => intro k i a h; simp at h
  | cons b rest ih =>
    intro k i a h x hx
    cases i with
    | zero =>
      rw [List.getElem?_cons_zero, Option.some_inj] at h
      subst h
      exact List.mem_append_left _ (mem_withPath hx)
    | succ i =>
      rw [List.getElem?_cons_succ] at h
      have heq : k + (i + 1) = (k + 1) + i := by omega
      rw [heq]
      exact List.mem_append_right _ (ih (k + 1) i a h x hx)

theorem mem_production_of_job {r : ProductionOrder} {x : Issue} (hx : x ∈ jobIssues r.job) :
    (⟨PathSeg.fld "job" :: x.path, x.message⟩ : Issue) ∈ productionOrderIssues r := by
  unfold productionOrderIssues
  exact List.mem_append_left _ (List.mem_append_left _
    (List.mem_append_left _ (mem_withPath hx)))

theorem mem_production_of_coffin {r : ProductionOrder} {i : Nat} {it : CoffinFish} {x : Issue}
    (h : r.coffinFishes[i]? = some it) (hx : x ∈ coffinFishIssues it) :
    (⟨PathSeg.fld "coffinFishes" :: PathSeg.idx i :: x.path, x.message⟩ : Issue) ∈
      productionOrderIssues r := by
  unfold productionOrderIssues
  have := mem_idxIssues coffinFishIssues "coffinFishes" r.coffinFishes 0 i it h x hx
  rw [Nat.zero_add] at this
  exact List.mem_append_left _ (List.mem_append_left _
    (List.mem_append_right _ (List.mem_append_right _ this)))

theorem mem_production_of_flat {r : ProductionOrder} {i : Nat} {it : FlatCasket} {x : Issue}
    (h : r.flatCaskets[i]? = some it) (hx : x ∈ flatCasketIssues it) :
    (⟨PathSeg.fld "flatCaskets" :: PathSeg.idx i :: x.path, x.message⟩ : Issue) ∈
      productionOrderIssues r := by
  unfold productionOrderIssues
  have := mem_idxIssues flatCasketIssues "flatCaskets" r.flatCaskets 0 i it h x hx
  rw [Nat.zero_add] at this
  exact List.mem_append_left _ (List.mem_append_right _ (List.mem_append_right _ this))

theorem mem_production_of_dome {r : ProductionOrder} {i : Nat} {it : DomeCasket} {x : Issue}
    (h : r.domeCaskets[i]? = some it) (hx : x ∈ domeCasketIssues it) :
    (⟨PathSeg.fld "domeCaskets" :: PathSeg.idx i :: x.path, x.message⟩ : Issue) ∈
      productionOrderIssues r := by
  unfold productionOrderIssues
  have := mem_idxIssues domeCasketIssues "domeCaskets" r.domeCaskets 0 i it h x hx
  rw [Nat.zero_add] at this
  exact List.mem_append_right _ (List.mem_append_right _ this)

/-- C4: in the production-order schema, a required enumerated field
holding the empty string at submit time yields a required-field error
at exactly the path of that field, and the record is rejected.  The record
is assumed structurally well typed with the sibling enumerated fields
of the same object holding a member of their option set or the empty
string (the data-model invariant); otherwise zod aborts that object
and skips its refinements. -/
theorem production_order_required_enum_empty :
    (∀ r : ProductionOrder, ¬jobAborted r.job → r.job.expectedDurationUnit = "" →
      (⟨[PathSeg.fld "job", PathSeg.fld "expectedDurationUnit"],
        "Please select a duration unit."⟩ : Issue) ∈ productionOrderIssues r ∧
      productionOrderIssues r ≠ []) ∧
    (∀ r : ProductionOrder, ¬jobAborted r.job → r.job.assignedTo = "" →
      (⟨[PathSeg.fld "job", PathSeg.fld "assignedTo"],
        "Please select the assignee team."⟩ : Issue) ∈ productionOrderIssues r ∧
      productionOrderIssues r ≠ []) ∧
    (∀ r : ProductionOrder, ¬jobAborted r.job → r.job.requestedBy = "" →
      (⟨[PathSeg.fld "job", PathSeg.fld "requestedBy"],
        "Please select who requested."⟩ : Issue) ∈ productionOrderIssues r ∧
      productionOrderIssues r ≠ []) ∧
    (∀ (r : ProductionOrder) (i : Nat) (it : CoffinFish), ¬coffinFishAborted it →
      r.coffinFishes[i]? = some it → it.size = "" →
      (⟨[PathSeg.fld "coffinFishes", PathSeg.idx i, PathSeg.fld "size"],
        "Please select a size."⟩ : Issue) ∈ productionOrderIssues r ∧
      productionOrderIssues r ≠ []) ∧
    (∀ (r : ProductionOrder) (i : Nat) (it : CoffinFish), ¬coffinFishAborted it →
      r.coffinFishes[i]? = some it → it.color = "" →
      (⟨[PathSeg.fld "coffinFishes", PathSeg.idx i, PathSeg.fld "color"],
        "Please select a color."⟩ : Issue) ∈ productionOrderIssues r ∧
      productionOrderIssues r ≠ []) ∧
    (∀ (r : ProductionOrder) (i : Nat) (it : FlatCasket), ¬flatCasketAborted it →
      r.flatCaskets[i]? = some it → it.material = "" →
      (⟨[PathSeg.fld "flatCaskets", PathSeg.idx i, PathSeg.fld "material"],
        "Please select material."⟩ : Issue) ∈ productionOrderIssues r ∧
      productionOrderIssues r ≠ []) ∧
    (∀ (r : ProductionOrder) (i : Nat) (it : FlatCasket), ¬flatCasketAborted it →
      r.flatCaskets[i]? = some it → it.tier = "" →
      (⟨[PathSeg.fld "flatCaskets", PathSeg.idx i, PathSeg.fld "tier"],
        "Please select tier."⟩ : Issue) ∈ productionOrderIssues r ∧
      productionOrderIssues r ≠ []) ∧
    (∀ (r : ProductionOrder) (i : Nat) (it : FlatCasket), ¬flatCasketAborted it →
      r.flatCaskets[i]? = some it → it.size = "" →
      (⟨[PathSeg.fld "flatCaskets", PathSeg.idx i, PathSeg.fld "size"],
        "Please select size."⟩ : Issue) ∈ productionOrderIssues r ∧
      productionOrderIssues r ≠ []) ∧
    (∀ (r : ProductionOrder) (i : Nat) (it : FlatCasket), ¬flatCasketAborted it →
      r.flatCaskets[i]? = some it → it.color = "" →
      (⟨[PathSeg.fld "flatCaskets", PathSeg.idx i, PathSeg.fld "color"],
        "Please select color."⟩ : Issue) ∈ productionOrderIssues r ∧
      productionOrderIssues r ≠ []) ∧
    (∀ (r : ProductionOrder) (i : Nat) (it : DomeCasket), ¬domeCasketAborted it →
      r.domeCaskets[i]? = some it → it.material = "" →
      (⟨[PathSeg.fld "domeCaskets", PathSeg.idx i, PathSeg.fld "material"],
        "Please select material."⟩ : Issue) ∈ productionOrderIssues r ∧
      productionOrderIssues r ≠ []) ∧
    (∀ (r : ProductionOrder) (i : Nat) (it : DomeCasket), ¬domeCasketAborted it →
      r.domeCaskets[i]? = some it → it.size = "" →
      (⟨[PathSeg.fld "domeCaskets", PathSeg.idx i, PathSeg.fld "size"],
        "Please select size."⟩ : Issue) ∈ productionOrderIssues r ∧
      productionOrderIssues r ≠ []) ∧
    (∀ (r : ProductionOrder) (i : Nat) (it : DomeCasket), ¬domeCasketAborted it →
      r.domeCaskets[i]? = some it → it.color = "" →
      (⟨[PathSeg.fld "domeCaskets", PathSeg.idx i, PathSeg.fld "color"],
        "Please select color."⟩ : Issue) ∈ productionOrderIssues r ∧
      productionOrderIssues r ≠ []) := by
  refine ⟨?_, ?_, ?_, ?_, ?_, ?_, ?_, ?_, ?_, ?_, ?_, ?_⟩
  · intro r hab h
    have hx : (⟨[PathSeg.fld "expectedDurationUnit"], "Please select a duration unit."⟩ :
        Issue) ∈ jobIssues r.job := by
      rw [jobIssues, if_neg hab]
      exact List.mem_append_right _ (List.mem_append_left _ (List.mem_append_left _
        (List.mem_append_left _ (List.mem_append_left _ (mem_condIssue h)))))
    exact ⟨mem_production_of_job hx, List.ne_nil_of_mem (mem_production_of_job hx)⟩
  · intro r hab h
    have hx : (⟨[PathSeg.fld "assignedTo"], "Please select the assignee team."⟩ :
        Issue) ∈ jobIssues r.job := by
      rw [jobIssues, if_neg hab]
      exact List.mem_append_right _ (List.mem_append_left _ (List.mem_append_left _
        (List.mem_append_left _ (List.mem_append_right _ (mem_condIssue h)))))
    exact ⟨mem_production_of_job hx, List.ne_nil_of_mem (mem_production_of_job hx)⟩
  · intro r hab h
    have hx : (⟨[PathSeg.fld "requestedBy"], "Please select who requested."⟩ :
        Issue) ∈ jobIssues r.job := by
      rw [jobIssues, if_neg hab]
      exact List.mem_append_right _ (List.mem_append_left _ (List.mem_append_left _
        (List.mem_append_right _ (mem_condIssue h))))
    exact ⟨mem_production_of_job hx, List.ne_nil_of_mem (mem_production_of_job hx)⟩
  · intro r i it hab hg h
    have hx : (⟨[PathSeg.fld "size"], "Please select a size."⟩ : Issue) ∈
        coffinFishIssues it := by
      rw [coffinFishIssues, if_neg hab]
      exact List.mem_append_right _ (List.mem_append_left _ (List.mem_append_left _
        (List.mem_append_left _ (mem_condIssue h))))
    exact ⟨mem_production_of_coffin hg hx,
      List.ne_nil_of_mem (mem_production_of_coffin hg hx)⟩
  · intro r i it hab hg h
    have hx : (⟨[PathSeg.fld "color"], "Please select a color."⟩ : Issue) ∈
        coffinFishIssues it := by
      rw [coffinFishIssues, if_neg hab]
      exact List.mem_append_right _ (List.mem_append_left _ (List.mem_append_left _
        (List.mem_append_right _ (mem_condIssue h))))
    exact ⟨mem_production_of_coffin hg hx,
      List.ne_nil_of_mem (mem_production_of_coffin hg hx)⟩
  · intro r i it hab hg h
    have hx : (⟨[PathSeg.fld "material"], "Please select material."⟩ : Issue) ∈
        flatCasketIssues it := by
      rw [flatCasketIssues, if_neg hab, flatCasketRefineIssues]
      exact List.mem_append_right _ (List.mem_append_left _ (List.mem_append_left _
        (List.mem_append_left _ (List.mem_append_left _ (List.mem_append_left _
          (mem_condIssue h))))))
    exact ⟨mem_production_of_flat hg hx,
      List.ne_nil_of_mem (mem_production_of_flat hg hx)⟩
  · intro r i it hab hg h
    have hx : (⟨[PathSeg.fld "tier"], "Please select tier."⟩ : Issue) ∈
        flatCasketIssues it := by
      rw [flatCasketIssues, if_neg hab, flatCasketRefineIssues]
      exact List.mem_append_right _ (List.mem_append_left _ (List.mem_append_left _
        (List.mem_append_left _ (List.mem_append_left _ (List.mem_append_right _
          (mem_condIssue h))))))
    exact ⟨mem_production_of_flat hg hx,
      List.ne_nil_of_mem (mem_production_of_flat hg hx)⟩
  · intro r i it hab hg h
    have hx : (⟨[PathSeg.fld "size"], "Please select size."⟩ : Issue) ∈
        flatCasketIssues it := by
      rw [flatCasketIssues, if_neg hab, flatCasketRefineIssues]
      exact List.mem_append_right _ (List.mem_append_left _ (List.mem_append_left _
        (List.mem_append_left _ (List.mem_append_right _ (mem_condIssue h)))))
    exact ⟨mem_production_of_flat hg hx,
      List.ne_nil_of_mem (mem_production_of_flat hg hx)⟩
  · intro r i it hab hg h
    have hx : (⟨[PathSeg.fld "color"], "Please select color."⟩ : Issue) ∈
        flatCasketIssues it := by
      rw [flatCasketIssues, if_neg hab, flatCasketRefineIssues]
      exact List.mem_append_right _ (List.mem_append_left _ (List.mem_append_left _
        (List.mem_append_right _ (mem_condIssue h))))
    exact ⟨mem_production_of_flat hg hx,
      List.ne_nil_of_mem (mem_production_of_flat hg hx)⟩
  · intro r i it hab hg h
    have hx : (⟨[PathSeg.fld "material"], "Please select material."⟩ : Issue) ∈
        domeCasketIssues it := by
      rw [domeCasketIssues, if_neg hab]
      exact List.mem_append_right _ (List.mem_append_left _ (List.mem_append_left _
        (List.mem_append_left _ (List.mem_append_left _ (mem_condIssue h)))))
    exact ⟨mem_production_of_dome hg hx,
      List.ne_nil_of_mem (mem_production_of_dome hg hx)⟩
  · intro r i it hab hg h
    have hx : (⟨[PathSeg.fld "size"], "Please select size."⟩ : Issue) ∈
        domeCasketIssues it := by
      rw [domeCasketIssues, if_neg hab]
      exact List.mem_append_right _ (List.mem_append_left _ (List.mem_append_left _
        (List.mem_append_left _ (List.mem_append_right _ (mem_condIssue h)))))
    exact ⟨mem_production_of_dome hg hx,
      List.ne_nil_of_mem (mem_production_of_dome hg hx)⟩
  · intro r i it hab hg h
    have hx : (⟨[PathSeg.fld "color"], "Please select color."⟩ : Issue) ∈
        domeCasketIssues it := by
      rw [domeCasketIssues, if_neg hab]
      exact List.mem_append_right _ (List.mem_append_left _ (List.mem_append_left _
        (List.mem_append_right _ (mem_condIssue h))))
    exact ⟨mem_production_of_dome hg hx,
      List.ne_nil_of_mem (mem_production_of_dome hg hx)⟩

/-- A concrete production order with every required enumerated field
left empty, used to witness C4. -/
def emptySelectsOrder : ProductionOrder :=
  ⟨⟨"2025-09-16", "10:00", 2, "", "", "", "", ""⟩,
   [⟨"Type C", "", "", "", "", 1⟩],
   [⟨"", "", "", "", "", "", 1⟩],
   [⟨"", "", "", "", "", 1⟩]⟩

/-- Witness for C4: every conjunct applied to the concrete
`emptySelectsOrder`, whose enumerated fields are all empty. -/
theorem production_order_required_enum_empty_witness :
    ((⟨[PathSeg.fld "job", PathSeg.fld "expectedDurationUnit"],
      "Please select a duration unit."⟩ : Issue) ∈ productionOrderIssues emptySelectsOrder) ∧
    ((⟨[PathSeg.fld "job", PathSeg.fld "assignedTo"],
      "Please select the assignee team."⟩ : Issue) ∈ productionOrderIssues emptySelectsOrder) ∧
    ((⟨[PathSeg.fld "job", PathSeg.fld "requestedBy"],
      "Please select who requested."⟩ : Issue) ∈ productionOrderIssues emptySelectsOrder) ∧
    ((⟨[PathSeg.fld "coffinFishes", PathSeg.idx 0, PathSeg.fld "size"],
      "Please select a size."⟩ : Issue) ∈ productionOrderIssues emptySelectsOrder) ∧
    ((⟨[PathSeg.fld "coffinFishes", PathSeg.idx 0, PathSeg.fld "color"],
      "Please select a color."⟩ : Issue) ∈ productionOrderIssues emptySelectsOrder) ∧
    ((⟨[PathSeg.fld "flatCaskets", PathSeg.idx 0, PathSeg.fld "material"],
      "Please select material."⟩ : Issue) ∈ productionOrderIssues emptySelectsOrder) ∧
    ((⟨[PathSeg.fld "flatCaskets", PathSeg.idx 0, PathSeg.fld "tier"],
      "Please select tier."⟩ : Issue) ∈ productionOrderIssues emptySelectsOrder) ∧
    ((⟨[PathSeg.fld "flatCaskets", PathSeg.idx 0, PathSeg.fld "size"],
      "Please select size."⟩ : Issue) ∈ productionOrderIssues emptySelectsOrder) ∧
    ((⟨[PathSeg.fld "flatCaskets", PathSeg.idx 0, PathSeg.fld "color"],
      "Please select color."⟩ : Issue) ∈ productionOrderIssues emptySelectsOrder) ∧
    ((⟨[PathSeg.fld "domeCaskets", PathSeg.idx 0, PathSeg.fld "material"],
      "Please select material."⟩ : Issue) ∈ productionOrderIssues emptySelectsOrder) ∧
    ((⟨[PathSeg.fld "domeCaskets", PathSeg.idx 0, PathSeg.fld "size"],
      "Please select size."⟩ : Issue) ∈ productionOrderIssues emptySelectsOrder) ∧
    ((⟨[PathSeg.fld "domeCaskets", PathSeg.idx 0, PathSeg.fld "color"],
      "Please select color."⟩ : Issue) ∈ productionOrderIssues emptySelectsOrder) ∧
    productionOrderIssues emptySelectsOrder ≠ [] := by
  obtain ⟨t1, t2, t3, t4, t5, t6, t7, t8, t9, t10, t11, t12⟩ :=
    production_order_required_enum_empty
  have h1 := t1 emptySelectsOrder (by decide) rfl
  refine ⟨h1.1, (t2 emptySelectsOrder (by decide) rfl).1,
    (t3 emptySelectsOrder (by decide) rfl).1,
    (t4 emptySelectsOrder 0 _ (by decide) rfl rfl).1,
    (t5 emptySelectsOrder 0 _ (by decide) rfl rfl).1,
    (t6 emptySelectsOrder 0 _ (by decide) rfl rfl).1,
    (t7 emptySelectsOrder 0 _ (by decide) rfl rfl).1,
    (t8 emptySelectsOrder 0 _ (by decide) rfl rfl).1,
    (t9 emptySelectsOrder 0 _ (by decide) rfl rfl).1,
    (t10 emptySelectsOrder 0 _ (by decide) rfl rfl).1,
    (t11 emptySelectsOrder 0 _ (by decide) rfl rfl).1,
    (t12 emptySelectsOrder 0 _ (by decide) rfl rfl).1, h1.2⟩

/-- All non-quantity constraints of a flat-casket line item hold: each
enumerated field is a real member of its option set and each
`Other`-companion is filled when required. -/
def flatFieldsOk (it : FlatCasket) : Prop :=
  it.material ∈ FLAT_MATERIALS ∧ it.tier ∈ FLAT_TIERS ∧ it.size ∈ FLAT_SIZES ∧
  it.color ∈ COLORS ∧ (it.size = "Other" → ¬jsTrim it.sizeOther = "") ∧
  (it.color = "Other" → ¬jsTrim it.colorOther = "")

instance (it : FlatCasket) : Decidable (flatFieldsOk it) := by
  unfold flatFieldsOk; infer_instance

theorem ne_empty_of_mem {opts : List String} {v : String}
    (h : v ∈ opts) (h0 : "" ∉ opts) : ¬v = "" :=
  fun he => h0 (he ▸ h)

theorem flatFieldsOk_not_aborted {it : FlatCasket} (hok : flatFieldsOk it) :
    ¬flatCasketAborted it := by
  rw [flatCasketAborted]
  push_neg
  exact ⟨Or.inl hok.1, Or.inl hok.2.1, Or.inl hok.2.2.1, Or.inl hok.2.2.2.1⟩

theorem flatFieldsOk_refine_nil {it : FlatCasket} (hok : flatFieldsOk it) :
    flatCasketRefineIssues it = [] := by
  obtain ⟨hm, htr, hs, hc, hso, hco⟩ := hok
  rw [flatCasketRefineIssues]
  rw [condIssue_eq_nil.mpr (ne_empty_of_mem hm (by decide)),
    condIssue_eq_nil.mpr (ne_empty_of_mem htr (by decide)),
    condIssue_eq_nil.mpr (ne_empty_of_mem hs (by decide)),
    condIssue_eq_nil.mpr (ne_empty_of_mem hc (by decide)),
    condIssue_eq_nil.mpr (fun hp => hso hp.1 hp.2),
    condIssue_eq_nil.mpr (fun hp => hco hp.1 hp.2)]
  rfl

theorem flatFieldsOk_enums_nil {it : FlatCasket} (hok : flatFieldsOk it) :
    enumOrEmptyIssues "material" FLAT_MATERIALS it.material = [] ∧
    enumOrEmptyIssues "tier" FLAT_TIERS it.tier = [] ∧
    enumOrEmptyIssues "size" FLAT_SIZES it.size = [] ∧
    enumOrEmptyIssues "color" COLORS it.color = [] := by
  obtain ⟨hm, htr, hs, hc, _, _⟩ := hok
  exact ⟨condIssue_eq_nil.mpr (not_not_intro (Or.inl hm)),
    condIssue_eq_nil.mpr (not_not_intro (Or.inl htr)),
    condIssue_eq_nil.mpr (not_not_intro (Or.inl hs)),
    condIssue_eq_nil.mpr (not_not_intro (Or.inl hc))⟩

/-- C7: the two structurally identical flat-casket line-item schemas
enforce independent quantity policies.  With all other fields valid,
the `src/unnamed/part_000` schema accepts a line item exactly when its
quantity is the literal 1, while the `src/Production_Order.tsx` schema
accepts exactly the integer quantities of at least 1. -/
theorem flat_casket_quantity_policies :
    (∀ it : FlatCasket, flatFieldsOk it →
      (p0FlatItemIssues it = [] ↔ it.quantity = 1)) ∧
    (∀ it : FlatCasket, flatFieldsOk it →
      (flatCasketIssues it = [] ↔ (⌊it.quantity⌋ : ℚ) = it.quantity ∧ 1 ≤ it.quantity)) := by
  constructor
  · intro it hok
    constructor
    · intro h
      rw [p0FlatItemIssues] at h
      simp only [List.append_eq_nil, condIssue_eq_nil] at h
      exact not_not.mp h.1.2
    · intro hq
      obtain ⟨e1, e2, e3, e4⟩ := flatFieldsOk_enums_nil hok
      have hab : ¬(flatCasketAborted it ∨ ¬it.quantity = 1) := by
        rw [not_or]
        exact ⟨flatFieldsOk_not_aborted hok, not_not_intro hq⟩
      rw [p0FlatItemIssues, if_neg hab, e1, e2, e3, e4,
        condIssue_eq_nil.mpr (not_not_intro hq), flatFieldsOk_refine_nil hok]
      rfl
  · intro it hok
    constructor
    · intro h
      rw [flatCasketIssues, baseQuantityIssues] at h
      simp only [List.append_eq_nil, condIssue_eq_nil] at h
      exact ⟨not_not.mp h.1.2.1, le_of_not_lt h.1.2.2⟩
    · intro hq
      obtain ⟨e1, e2, e3, e4⟩ := flatFieldsOk_enums_nil hok
      rw [flatCasketIssues, if_neg (flatFieldsOk_not_aborted hok), e1, e2, e3, e4,
        baseQuantityIssues, condIssue_eq_nil.mpr (not_not_intro hq.1),
        condIssue_eq_nil.mpr (not_lt_of_le hq.2), flatFieldsOk_refine_nil hok]
      rfl

/-- Witness for C7: the concrete line item with quantity 2 and all
other fields valid is rejected by the `part_000` schema and accepted by
the `Production_Order` schema; with quantity 1 both accept it. -/
theorem flat_casket_quantity_policies_witness :
    p0FlatItemIssues ⟨"Superwood", "Flat", "Adult", "", "White", "", 2⟩ ≠ [] ∧
    flatCasketIssues ⟨"Superwood", "Flat", "Adult", "", "White", "", 2⟩ = [] ∧
    p0FlatItemIssues ⟨"Superwood", "Flat", "Adult", "", "White", "", 1⟩ = [] := by
  refine ⟨fun h => ?_, ?_, ?_⟩
  · have := (flat_casket_quantity_policies.1 _ (by decide)).mp h
    norm_num at this
  · exact (flat_casket_quantity_policies.2 _ (by decide)).mpr (by norm_num)
  · exact (flat_casket_quantity_policies.1 _ (by decide)).mpr rfl

/-!
## Date and time parsing

`src/Downtime.tsx` combines a date input and a time input into
`new Date("YYYY-MM-DDTHH:MM")` and `src/Customer_V2.tsx` compares
`new Date(dateString)` values.  We model the parse of the
`YYYY-MM-DD` / `HH:MM` shapes produced by the date and time inputs:
a valid date maps to its civil day number relative to 1970-01-01 and a
combined date-time to a millisecond timestamp (host timezone taken as
UTC); an invalid string maps to `none` (the `NaN` date, which every
comparison treats as false and the validator flags). -/

def isLeapYear (y : Int) : Bool :=
  y % 4 == 0 && (y % 100 != 0 || y % 400 == 0)

def daysInMonth (y : Int) (m : Nat) : Nat :=
  match m with
  | 1 => 31 | 2 => if isLeapYear y then 29 else 28 | 3 => 31 | 4 => 30
  | 5 => 31 | 6 => 30 | 7 => 31 | 8 => 31 | 9 => 30 | 10 => 31
  | 11 => 30 | 12 => 31 | _ => 0

/-- Civil day number of `y-m-d` relative to 1970-01-01
(the standard era-based calendar algorithm). -/
def daysFromCivil (y : Int) (m d : Nat) : Int :=
  let y2 : Int := if m ≤ 2 then y - 1 else y
  let era : Int := Int.fdiv y2 400
  let yoe : Int := y2 - era * 400
  let doy : Int := Int.fdiv (153 * ((m : Int) + (if 2 < m then -3 else 9)) + 2) 5 + (d : Int) - 1
  let doe : Int := yoe * 365 + Int.fdiv yoe 4 - Int.fdiv yoe 100 + doy
  era * 146097 + doe - 719468

def natOfDigitsAux : List Char → Nat → Option Nat
  | [], acc => some acc
  | c :: cs, acc =>
    if c.isDigit then natOfDigitsAux cs (acc * 10 + (c.toNat - 48)) else none

def natOfDigits (l : List Char) : Option Nat :=
  if l = [] then none else natOfDigitsAux l 0

def splitChar (sep : Char) : List Char → List (List Char)
  | [] => [[]]
  | c :: cs =>
    let r := splitChar sep cs
    if c = sep then [] :: r
    else
      match r with
      | [] => [[c]]
      | h :: t => (c :: h) :: t

/-- Parse a `YYYY-MM-DD` date-input value to its civil day number;
`none` on any other or out-of-range input (the invalid date). -/
def parseDateYMD (s : String) : Option Int :=
  match splitChar (Char.ofNat 45) s.data with
  | [ys, ms, ds] =>
    if ys.length = 4 ∧ ms.length = 2 ∧ ds.length = 2 then
      match natOfDigits ys, natOfDigits ms, natOfDigits ds with
      | some y, some m, some d =>
        if 1 ≤ m ∧ m ≤ 12 ∧ 1 ≤ d ∧ d ≤ daysInMonth (y : Int) m then
          some (daysFromCivil (y : Int) m d)
        else none
      | _, _, _ => none
    else none
  | _ => none

/-- Parse an `HH:MM` time-input value to minutes since midnight. -/
def parseTimeHM (s : String) : Option Nat :=
  match splitChar (Char.ofNat 58) s.data with
  | [hs, ms] =>
    if hs.length = 2 ∧ ms.length = 2 then
      match natOfDigits hs, natOfDigits ms with
      | some h, some m =>
        if (h ≤ 23 ∧ m ≤ 59) ∨ (h = 24 ∧ m = 0) then some (h * 60 + m) else none
      | _, _ => none
    else none
  | _ => none

/-- `combineISO` from `src/Downtime.tsx`: the instant (milliseconds) of
`new Date(startDate + "T" + startTime)`; `none` when the combined
string does not parse. -/
def combineISO (d t : String) : Option Int :=
  match parseDateYMD d, parseTimeHM t with
  | some days, some mins => some (days * 86400000 + (mins : Int) * 60000)
  | _, _ => none

/-!
## Downtime form (`FormSchema` and `onSubmit`, `src/Downtime.tsx`)
-/

def departments : List String :=
  ["Cutting", "Assembly", "Sanding", "Spraying", "Upholstery/Lining", "Other"]

def reasons : List String :=
  ["Raw material out of stock", "No electricity", "No workforce",
   "Machine breakdown", "Maintenance", "Management directive", "Other"]

structure DowntimeValues where
  reporter : String
  department : String
  departmentOther : String
  reason : String
  reasonOther : String
  startDate : String
  startTime : String
  details : String
  immediateAction : String

/-- The downtime object parse aborts when `department` or `reason` is
not a member of its `z.enum`; the `superRefine` is then skipped. -/
def downtimeAborted (v : DowntimeValues) : Prop :=
  v.department ∉ departments ∨ v.reason ∉ reasons

instance (v : DowntimeValues) : Decidable (downtimeAborted v) := by
  unfold downtimeAborted; infer_instance

/-- Issues produced by `FormSchema.safeParse` of the downtime form on
a structurally well-typed record. -/
def downtimeIssues (v : DowntimeValues) : List Issue :=
  condIssue (v.reporter.length < 2) ⟨[.fld "reporter"], "Please enter the reporter\x27s name."⟩
  ++ condIssue (v.department ∉ departments) ⟨[.fld "department"], "Invalid enum value"⟩
  ++ condIssue (v.reason ∉ reasons) ⟨[.fld "reason"], "Invalid enum value"⟩
  ++ condIssue (v.startDate.length < 1) ⟨[.fld "startDate"], "Select a start date."⟩
  ++ condIssue (v.startTime.length < 1) ⟨[.fld "startTime"], "Select a start time."⟩
  ++ (if downtimeAborted v then []
      else
        condIssue (v.department = "Other" ∧ jsTrim v.departmentOther = "")
          ⟨[.fld "departmentOther"], "Please specify the department."⟩
        ++ condIssue (v.reason = "Other" ∧ jsTrim v.reasonOther = "")
          ⟨[.fld "reasonOther"], "Please specify the reason."⟩
        ++ condIssue (combineISO v.startDate v.startTime = none)
          ⟨[.fld "startTime"], "Invalid date/time."⟩)

/-- The payload assembled by the downtime `onSubmit`. -/
structure DowntimePayload where
  reporter : String
  department : String
  reason : String
  startISO : Option Int
  details : Option String
  immediateAction : Option String
deriving DecidableEq

/-- `onSubmit` of `src/Downtime.tsx`: trim the reporter, substitute the
trimmed `Other` text for the sentinel, combine date and time into one
instant, and null out empty or whitespace-only optional texts. -/
def buildDowntimePayload (v : DowntimeValues) : DowntimePayload :=
  ⟨jsTrim v.reporter,
   if v.department = "Other" then jsTrim v.departmentOther else v.department,
   if v.reason = "Other" then jsTrim v.reasonOther else v.reason,
   combineISO v.startDate v.startTime,
   if jsTrim v.details = "" then none else some (jsTrim v.details),
   if jsTrim v.immediateAction = "" then none else some (jsTrim v.immediateAction)⟩

/-!
## Casket form (`schema`, `CasketForm` in `src/Stock_Receipt.tsx`)

The required selects are validated as non-empty strings only; the
`...Other` companions are plain optional strings and the schema has no
refinement at all, so selecting `Other` with an empty companion
parses successfully. -/

structure Casket where
  type : String
  typeOther : String
  name : String
  price : Option ℚ
  material : String
  materialOther : String
  exteriorFinish : String
  colour : String
  colourOther : String
  interiorFinish : String
  interiorFinishOther : String
  hardware : List String

/-- Issues produced by the casket `schema.safeParse` on a structurally
well-typed record (`price` is `none` when the input was empty and the
preprocess produced `undefined`). -/
def casketIssues (c : Casket) : List Issue :=
  condIssue (c.type.length < 1) ⟨[.fld "type"], "Type is required"⟩
  ++ condIssue (c.name.length < 1) ⟨[.fld "name"], "Name is required"⟩
  ++ (match c.price with
      | none => [⟨[.fld "price"], "Required"⟩]
      | some p => condIssue (¬0 < p) ⟨[.fld "price"], "Price must be > 0"⟩)
  ++ condIssue (c.material.length < 1) ⟨[.fld "material"], "Material is required"⟩
  ++ condIssue (c.exteriorFinish.length < 1) ⟨[.fld "exteriorFinish"], "Exterior Finish is required"⟩
  ++ condIssue (c.colour.length < 1) ⟨[.fld "colour"], "Colour is required"⟩
  ++ condIssue (c.interiorFinish.length < 1) ⟨[.fld "interiorFinish"], "Interior Finish is required"⟩

/-- A casket record that selects the sentinel `Other` for `type` while
leaving `typeOther` empty; every other field is valid. -/
def casketWithEmptyOther : Casket :=
  ⟨"Other", "", "Classic Dome", some 100, "Zimtex", "", "Gloss Painted",
   "White", "", "Polyester", "", []⟩

/-- C10: for every downtime record accepted by validation, the
submitted payload is the normalized transformation of the record: the
sentinel `Other` is replaced by the trimmed companion text (and the
selected value is kept otherwise), the reporter is trimmed, the date
and time combine into a valid instant `startISO`, empty or
whitespace-only optional texts become `null`, and the normalized
`department` and `reason` are never empty. -/
theorem downtime_submit_normalization :
    ∀ v : DowntimeValues, downtimeIssues v = [] →
      (buildDowntimePayload v).reporter = jsTrim v.reporter ∧
      (v.department = "Other" →
        (buildDowntimePayload v).department = jsTrim v.departmentOther) ∧
      (v.department ≠ "Other" → (buildDowntimePayload v).department = v.department) ∧
      (v.reason = "Other" → (buildDowntimePayload v).reason = jsTrim v.reasonOther) ∧
      (v.reason ≠ "Other" → (buildDowntimePayload v).reason = v.reason) ∧
      (buildDowntimePayload v).startISO = combineISO v.startDate v.startTime ∧
      (∃ t, combineISO v.startDate v.startTime = some t) ∧
      (jsTrim v.details = "" → (buildDowntimePayload v).details = none) ∧
      (jsTrim v.details ≠ "" →
        (buildDowntimePayload v).details = some (jsTrim v.details)) ∧
      (jsTrim v.immediateAction = "" → (buildDowntimePayload v).immediateAction = none) ∧
      (jsTrim v.immediateAction ≠ "" →
        (buildDowntimePayload v).immediateAction = some (jsTrim v.immediateAction)) ∧
      (buildDowntimePayload v).department ≠ "" ∧
      (buildDowntimePayload v).reason ≠ "" := by
  intro v h
  rw [downtimeIssues] at h
  simp only [List.append_eq_nil, condIssue_eq_nil] at h
  obtain ⟨⟨⟨⟨⟨hrep, hdep⟩, hrea⟩, hsd⟩, hst⟩, hlast⟩ := h
  have hdep2 : v.department ∈ departments := not_not.mp hdep
  have hrea2 : v.reason ∈ reasons := not_not.mp hrea
  have hnab : ¬downtimeAborted v := by
    rw [downtimeAborted]; push_neg; exact ⟨hdep2, hrea2⟩
  rw [if_neg hnab] at hlast
  simp only [List.append_eq_nil, condIssue_eq_nil] at hlast
  obtain ⟨⟨hdo, hro⟩, hdt⟩ := hlast
  refine ⟨rfl, ?_, ?_, ?_, ?_, rfl, Option.ne_none_iff_exists'.mp hdt,
    ?_, ?_, ?_, ?_, ?_, ?_⟩
  · intro hO; simp [buildDowntimePayload, hO]
  · intro hO; simp [buildDowntimePayload, hO]
  · intro hO; simp [buildDowntimePayload, hO]
  · intro hO; simp [buildDowntimePayload, hO]
  · intro hd; simp [buildDowntimePayload, hd]
  · intro hd; simp [buildDowntimePayload, hd]
  · intro hi; simp [buildDowntimePayload, hi]
  · intro hi; simp [buildDowntimePayload, hi]
  · by_cases hO : v.department = "Other"
    · simp only [buildDowntimePayload, if_pos hO]
      exact fun hc => hdo ⟨hO, hc⟩
    · simp only [buildDowntimePayload, if_neg hO]
      exact ne_empty_of_mem hdep2 (by decide)
  · by_cases hO : v.reason = "Other"
    · simp only [buildDowntimePayload, if_pos hO]
      exact fun hc => hro ⟨hO, hc⟩
    · simp only [buildDowntimePayload, if_neg hO]
      exact ne_empty_of_mem hrea2 (by decide)

/-- An accepted concrete downtime record used to witness C10. -/
def downtimeSample : DowntimeValues :=
  ⟨"Jo", "Cutting", "", "No electricity", "", "2025-01-15", "08:30", "  ", "Restarted"⟩

/-- Witness for C10: the normalization conclusions evaluated on the
accepted concrete record `downtimeSample`. -/
theorem downtime_submit_normalization_witness :
    (buildDowntimePayload downtimeSample).reporter = jsTrim downtimeSample.reporter ∧
    (buildDowntimePayload downtimeSample).department = downtimeSample.department ∧
    (∃ t, combineISO downtimeSample.startDate downtimeSample.startTime = some t) ∧
    (buildDowntimePayload downtimeSample).details = none ∧
    (buildDowntimePayload downtimeSample).department ≠ "" := by
  obtain ⟨p1, p2, p3, p4, p5, p6, p7, p8, p9, p10, p11, p12, p13⟩ :=
    downtime_submit_normalization downtimeSample (by decide)
  exact ⟨p1, p3 (by decide), p7, p8 (by decide), p12⟩

/-- C1 counterexample: the submit-time schema of the casket form does not
enforce the `Other`-companion rule.  The concrete record selecting
`type = "Other"` with an empty (trimmed) `typeOther` parses with no
issues, refuting the claim that every `Other`-bearing enumerated field
in the submit-time schema of every form requires its companion text. -/
theorem casket_other_companion_counterexample :
    casketWithEmptyOther.type = "Other" ∧
    jsTrim casketWithEmptyOther.typeOther = "" ∧
    casketIssues casketWithEmptyOther = [] := by
  refine ⟨rfl, by decide, ?_⟩
  norm_num [casketIssues, casketWithEmptyOther, condIssue]
  decide

/-- C1 (amended): in the production-order and downtime submit-time
schemas, whenever an enumerated field resolves to the sentinel `Other`
and its companion `<field>Other` text is empty after trimming, the
record is rejected with a specify-error at the companion path (the
enclosing object assumed not aborted by an invalid sibling enum); the
schema of the casket form enforces no such rule. -/
theorem other_companion_required_amended :
    (∀ r : ProductionOrder, ¬jobAborted r.job → r.job.assignedTo = "Other" →
      jsTrim r.job.assignedToOther = "" →
      (⟨[PathSeg.fld "job", PathSeg.fld "assignedToOther"],
        "Please specify who it\x27s assigned to."⟩ : Issue) ∈ productionOrderIssues r ∧
      productionOrderIssues r ≠ []) ∧
    (∀ r : ProductionOrder, ¬jobAborted r.job → r.job.requestedBy = "Other" →
      jsTrim r.job.requestedByOther = "" →
      (⟨[PathSeg.fld "job", PathSeg.fld "requestedByOther"],
        "Please specify who requested."⟩ : Issue) ∈ productionOrderIssues r ∧
      productionOrderIssues r ≠ []) ∧
    (∀ (r : ProductionOrder) (i : Nat) (it : CoffinFish), ¬coffinFishAborted it →
      r.coffinFishes[i]? = some it → it.size = "Other" → jsTrim it.sizeOther = "" →
      (⟨[PathSeg.fld "coffinFishes", PathSeg.idx i, PathSeg.fld "sizeOther"],
        "Please specify the size."⟩ : Issue) ∈ productionOrderIssues r ∧
      productionOrderIssues r ≠ []) ∧
    (∀ (r : ProductionOrder) (i : Nat) (it : CoffinFish), ¬coffinFishAborted it →
      r.coffinFishes[i]? = some it → it.color = "Other" → jsTrim it.colorOther = "" →
      (⟨[PathSeg.fld "coffinFishes", PathSeg.idx i, PathSeg.fld "colorOther"],
        "Please specify the color."⟩ : Issue) ∈ productionOrderIssues r ∧
      productionOrderIssues r ≠ []) ∧
    (∀ (r : ProductionOrder) (i : Nat) (it : FlatCasket), ¬flatCasketAborted it →
      r.flatCaskets[i]? = some it → it.size = "Other" → jsTrim it.sizeOther = "" →
      (⟨[PathSeg.fld "flatCaskets", PathSeg.idx i, PathSeg.fld "sizeOther"],
        "Please specify the size."⟩ : Issue) ∈ productionOrderIssues r ∧
      productionOrderIssues r ≠ []) ∧
    (∀ (r : ProductionOrder) (i : Nat) (it : FlatCasket), ¬flatCasketAborted it →
      r.flatCaskets[i]? = some it → it.color = "Other" → jsTrim it.colorOther = "" →
      (⟨[PathSeg.fld "flatCaskets", PathSeg.idx i, PathSeg.fld "colorOther"],
        "Please specify the color."⟩ : Issue) ∈ productionOrderIssues r ∧
      productionOrderIssues r ≠ []) ∧
    (∀ (r : ProductionOrder) (i : Nat) (it : DomeCasket), ¬domeCasketAborted it →
      r.domeCaskets[i]? = some it → it.size = "Other" → jsTrim it.sizeOther = "" →
      (⟨[PathSeg.fld "domeCaskets", PathSeg.idx i, PathSeg.fld "sizeOther"],
        "Please specify the size."⟩ : Issue) ∈ productionOrderIssues r ∧
      productionOrderIssues r ≠ []) ∧
    (∀ (r : ProductionOrder) (i : Nat) (it : DomeCasket), ¬domeCasketAborted it →
      r.domeCaskets[i]? = some it → it.color = "Other" → jsTrim it.colorOther = "" →
      (⟨[PathSeg.fld "domeCaskets", PathSeg.idx i, PathSeg.fld "colorOther"],
        "Please specify the color."⟩ : Issue) ∈ productionOrderIssues r ∧
      productionOrderIssues r ≠ []) ∧
    (∀ v : DowntimeValues, ¬downtimeAborted v → v.department = "Other" →
      jsTrim v.departmentOther = "" →
      (⟨[PathSeg.fld "departmentOther"], "Please specify the department."⟩ : Issue) ∈
        downtimeIssues v ∧ downtimeIssues v ≠ []) ∧
    (∀ v : DowntimeValues, ¬downtimeAborted v → v.reason = "Other" →
      jsTrim v.reasonOther = "" →
      (⟨[PathSeg.fld "reasonOther"], "Please specify the reason."⟩ : Issue) ∈
        downtimeIssues v ∧ downtimeIssues v ≠ []) := by
  refine ⟨?_, ?_, ?_, ?_, ?_, ?_, ?_, ?_, ?_, ?_⟩
  · intro r hab hO htr
    have hx : (⟨[PathSeg.fld "assignedToOther"],
        "Please specify who it\x27s assigned to."⟩ : Issue) ∈ jobIssues r.job := by
      rw [jobIssues, if_neg hab]
      exact List.mem_append_right _ (List.mem_append_left _
        (List.mem_append_right _ (mem_condIssue ⟨hO, htr⟩)))
    exact ⟨mem_production_of_job hx, List.ne_nil_of_mem (mem_production_of_job hx)⟩
  · intro r hab hO htr
    have hx : (⟨[PathSeg.fld "requestedByOther"],
        "Please specify who requested."⟩ : Issue) ∈ jobIssues r.job := by
      rw [jobIssues, if_neg hab]
      exact List.mem_append_right _ (List.mem_append_right _ (mem_condIssue ⟨hO, htr⟩))
    exact ⟨mem_production_of_job hx, List.ne_nil_of_mem (mem_production_of_job hx)⟩
  · intro r i it hab hg hO htr
    have hx : (⟨[PathSeg.fld "sizeOther"], "Please specify the size."⟩ : Issue) ∈
        coffinFishIssues it := by
      rw [coffinFishIssues, if_neg hab]
      exact List.mem_append_right _ (List.mem_append_left _
        (List.mem_append_right _ (mem_condIssue ⟨hO, htr⟩)))
    exact ⟨mem_production_of_coffin hg hx,
      List.ne_nil_of_mem (mem_production_of_coffin hg hx)⟩
  · intro r i it hab hg hO htr
    have hx : (⟨[PathSeg.fld "colorOther"], "Please specify the color."⟩ : Issue) ∈
        coffinFishIssues it := by
      rw [coffinFishIssues, if_neg hab]
      exact List.mem_append_right _ (List.mem_append_right _ (mem_condIssue ⟨hO, htr⟩))
    exact ⟨mem_production_of_coffin hg hx,
      List.ne_nil_of_mem (mem_production_of_coffin hg hx)⟩
  · intro r i it hab hg hO htr
    have hx : (⟨[PathSeg.fld "sizeOther"], "Please specify the size."⟩ : Issue) ∈
        flatCasketIssues it := by
      rw [flatCasketIssues, if_neg hab, flatCasketRefineIssues]
      exact List.mem_append_right _ (List.mem_append_left _
        (List.mem_append_right _ (mem_condIssue ⟨hO, htr⟩)))
    exact ⟨mem_production_of_flat hg hx,
      List.ne_nil_of_mem (mem_production_of_flat hg hx)⟩
  · intro r i it hab hg hO htr
    have hx : (⟨[PathSeg.fld "colorOther"], "Please specify the color."⟩ : Issue) ∈
        flatCasketIssues it := by
      rw [flatCasketIssues, if_neg hab, flatCasketRefineIssues]
      exact List.mem_append_right _ (List.mem_append_right _ (mem_condIssue ⟨hO, htr⟩))
    exact ⟨mem_production_of_flat hg hx,
      List.ne_nil_of_mem (mem_production_of_flat hg hx)⟩
  · intro r i it hab hg hO htr
    have hx : (⟨[PathSeg.fld "sizeOther"], "Please specify the size."⟩ : Issue) ∈
        domeCasketIssues it := by
      rw [domeCasketIssues, if_neg hab]
      exact List.mem_append_right _ (List.mem_append_left _
        (List.mem_append_right _ (mem_condIssue ⟨hO, htr⟩)))
    exact ⟨mem_production_of_dome hg hx,
      List.ne_nil_of_mem (mem_production_of_dome hg hx)⟩
  · intro r i it hab hg hO htr
    have hx : (⟨[PathSeg.fld "colorOther"], "Please specify the color."⟩ : Issue) ∈
        domeCasketIssues it := by
      rw [domeCasketIssues, if_neg hab]
      exact List.mem_append_right _ (List.mem_append_right _ (mem_condIssue ⟨hO, htr⟩))
    exact ⟨mem_production_of_dome hg hx,
      List.ne_nil_of_mem (mem_production_of_dome hg hx)⟩
  · intro v hab hO htr
    have hx : (⟨[PathSeg.fld "departmentOther"],
        "Please specify the department."⟩ : Issue) ∈ downtimeIssues v := by
      rw [downtimeIssues, if_neg hab]
      exact List.mem_append_right _ (List.mem_append_left _
        (List.mem_append_left _ (mem_condIssue ⟨hO, htr⟩)))
    exact ⟨hx, List.ne_nil_of_mem hx⟩
  · intro v hab hO htr
    have hx : (⟨[PathSeg.fld "reasonOther"],
        "Please specify the reason."⟩ : Issue) ∈ downtimeIssues v := by
      rw [downtimeIssues, if_neg hab]
      exact List.mem_append_right _ (List.mem_append_left _
        (List.mem_append_right _ (mem_condIssue ⟨hO, htr⟩)))
    exact ⟨hx, List.ne_nil_of_mem hx⟩

/-- A concrete production order selecting `Other` everywhere while
leaving every companion text blank, used to witness the amended C1. -/
def otherMissingOrder : ProductionOrder :=
  ⟨⟨"2025-09-16", "10:00", 2, "Days", "Other", "", "Other", ""⟩,
   [⟨"Type B", "Other", "", "Other", "", 1⟩],
   [⟨"Superwood", "Flat", "Other", "", "Other", "", 1⟩],
   [⟨"Superwood", "Other", "", "Other", "", 1⟩]⟩

/-- A concrete downtime record selecting `Other` for department and
reason with blank or whitespace-only companions. -/
def otherMissingDowntime : DowntimeValues :=
  ⟨"Jo", "Other", "", "Other", " ", "2025-01-15", "08:30", "", ""⟩

/-- Witness for the amended C1: every conjunct applied at the concrete
records with the sentinel selected and the companion blank. -/
theorem other_companion_required_amended_witness :
    ((⟨[PathSeg.fld "job", PathSeg.fld "assignedToOther"],
      "Please specify who it\x27s assigned to."⟩ : Issue) ∈
        productionOrderIssues otherMissingOrder) ∧
    ((⟨[PathSeg.fld "job", PathSeg.fld "requestedByOther"],
      "Please specify who requested."⟩ : Issue) ∈
        productionOrderIssues otherMissingOrder) ∧
    ((⟨[PathSeg.fld "coffinFishes", PathSeg.idx 0, PathSeg.fld "sizeOther"],
      "Please specify the size."⟩ : Issue) ∈ productionOrderIssues otherMissingOrder) ∧
    ((⟨[PathSeg.fld "coffinFishes", PathSeg.idx 0, PathSeg.fld "colorOther"],
      "Please specify the color."⟩ : Issue) ∈ productionOrderIssues otherMissingOrder) ∧
    ((⟨[PathSeg.fld "flatCaskets", PathSeg.idx 0, PathSeg.fld "sizeOther"],
      "Please specify the size."⟩ : Issue) ∈ productionOrderIssues otherMissingOrder) ∧
    ((⟨[PathSeg.fld "flatCaskets", PathSeg.idx 0, PathSeg.fld "colorOther"],
      "Please specify the color."⟩ : Issue) ∈ productionOrderIssues otherMissingOrder) ∧
    ((⟨[PathSeg.fld "domeCaskets", PathSeg.idx 0, PathSeg.fld "sizeOther"],
      "Please specify the size."⟩ : Issue) ∈ productionOrderIssues otherMissingOrder) ∧
    ((⟨[PathSeg.fld "domeCaskets", PathSeg.idx 0, PathSeg.fld "colorOther"],
      "Please specify the color."⟩ : Issue) ∈ productionOrderIssues otherMissingOrder) ∧
    ((⟨[PathSeg.fld "departmentOther"], "Please specify the department."⟩ : Issue) ∈
      downtimeIssues otherMissingDowntime) ∧
    ((⟨[PathSeg.fld "reasonOther"], "Please specify the reason."⟩ : Issue) ∈
      downtimeIssues otherMissingDowntime) ∧
    productionOrderIssues otherMissingOrder ≠ [] ∧
    downtimeIssues otherMissingDowntime ≠ [] := by
  obtain ⟨a1, a2, a3, a4, a5, a6, a7, a8, a9, a10⟩ := other_companion_required_amended
  have h1 := a1 otherMissingOrder (by decide) rfl (by decide)
  have h9 := a9 otherMissingDowntime (by decide) rfl (by decide)
  exact ⟨h1.1, (a2 otherMissingOrder (by decide) rfl (by decide)).1,
    (a3 otherMissingOrder 0 _ (by decide) rfl rfl (by decide)).1,
    (a4 otherMissingOrder 0 _ (by decide) rfl rfl (by decide)).1,
    (a5 otherMissingOrder 0 _ (by decide) rfl rfl (by decide)).1,
    (a6 otherMissingOrder 0 _ (by decide) rfl rfl (by decide)).1,
    (a7 otherMissingOrder 0 _ (by decide) rfl rfl (by decide)).1,
    (a8 otherMissingOrder 0 _ (by decide) rfl rfl (by decide)).1,
    h9.1, (a10 otherMissingDowntime (by decide) rfl (by decide)).1,
    h1.2, h9.2⟩

/-!
## Two-step customer form (`src/Customer_V2.tsx`)

`nextStep` on the deceased-details step and `onSubmit` both guard:
when both date strings are truthy and `new Date(deathDate) <
new Date(birthDate)`, a validation error is set on `deathDate` and the
record is not submitted.  An unparseable date is `NaN`, every
comparison with which is false.
-/

structure CustomerV2Data where
  customerName : String
  phone : String
  email : String
  deceasedName : String
  birthDate : String
  deathDate : String
  gender : String
deriving DecidableEq

/-- `birthDate && deathDate && new Date(deathDate) < new Date(birthDate)`. -/
def deathBeforeBirthB (d : CustomerV2Data) : Bool :=
  d.birthDate != "" && d.deathDate != "" &&
    (match parseDateYMD d.deathDate, parseDateYMD d.birthDate with
     | some x, some y => decide (x < y)
     | _, _ => false)

inductive StepResult where
  | blocked (field msg : String)
  | advance
deriving DecidableEq

/-- `nextStep` at the deceased-details step (its per-field `trigger`
has no rules on that step, so only the cross-field date check can
block). -/
def nextStepDeceased (d : CustomerV2Data) : StepResult :=
  if deathBeforeBirthB d then
    .blocked "deathDate" "Date of death cannot be before date of birth."
  else .advance

inductive CustomerSubmitResult where
  | rejected (field msg : String)
  | submitted (data : CustomerV2Data)
deriving DecidableEq

/-- `onSubmit` of `src/Customer_V2.tsx`. -/
def customerOnSubmit (d : CustomerV2Data) : CustomerSubmitResult :=
  if deathBeforeBirthB d then
    .rejected "deathDate" "Date of death cannot be before date of birth."
  else .submitted d

/-- C8: when both dates are non-empty and the death date parses to an
instant strictly earlier than the birth date, advancing past the
deceased-details step is blocked and submission is rejected, both with
the `deathDate` error; when either date is empty no such error is
raised and submission proceeds. -/
theorem customer_death_before_birth :
    (∀ (d : CustomerV2Data) (x y : Int), d.birthDate ≠ "" → d.deathDate ≠ "" →
      parseDateYMD d.deathDate = some x → parseDateYMD d.birthDate = some y → x < y →
      nextStepDeceased d =
        .blocked "deathDate" "Date of death cannot be before date of birth." ∧
      customerOnSubmit d =
        .rejected "deathDate" "Date of death cannot be before date of birth.") ∧
    (∀ d : CustomerV2Data, d.birthDate = "" ∨ d.deathDate = "" →
      nextStepDeceased d = .advance ∧ customerOnSubmit d = .submitted d) := by
  constructor
  · intro d x y hb hd hpx hpy hlt
    have hB : deathBeforeBirthB d = true := by
      simp [deathBeforeBirthB, hpx, hpy, hb, hd, hlt]
    simp [nextStepDeceased, customerOnSubmit, hB]
  · intro d hor
    have hB : deathBeforeBirthB d = false := by
      rcases hor with h | h <;> simp [deathBeforeBirthB, h]
    simp [nextStepDeceased, customerOnSubmit, hB]

/-- Witness for C8: the dates `2000-01-02` (death) and `2000-01-05`
(birth) block and reject, while an empty birth date submits. -/
theorem customer_death_before_birth_witness :
    nextStepDeceased ⟨"Ann", "", "", "Bob", "2000-01-05", "2000-01-02", "Male"⟩ =
      .blocked "deathDate" "Date of death cannot be before date of birth." ∧
    customerOnSubmit ⟨"Ann", "", "", "Bob", "2000-01-05", "2000-01-02", "Male"⟩ =
      .rejected "deathDate" "Date of death cannot be before date of birth." ∧
    customerOnSubmit ⟨"Ann", "", "", "Bob", "", "2000-01-02", "Male"⟩ =
      .submitted ⟨"Ann", "", "", "Bob", "", "2000-01-02", "Male"⟩ := by
  have h1 := customer_death_before_birth.1
    ⟨"Ann", "", "", "Bob", "2000-01-05", "2000-01-02", "Male"⟩ 10958 10961
    (by decide) (by decide) (by decide) (by decide) (by decide)
  have h2 := customer_death_before_birth.2
    ⟨"Ann", "", "", "Bob", "", "2000-01-02", "Male"⟩ (Or.inl rfl)
  exact ⟨h1.1, h1.2, h2.2⟩

/-!
## User registration form (`UserRegistrationForm`, `src/Stock_Receipt.tsx`)

Drafts are persisted under `DRAFT_KEY` in both `localStorage` and
IndexedDB.  `onSubmit` awaits `submitToServer`; on success it runs
`clearDrafts` (removing the key from both stores) and on failure it
leaves the stores untouched and offers a Retry action that re-invokes
`onSubmit` with the current form values.
-/

structure RegFormValues where
  firstName : String
  lastName : String
  role : String
deriving DecidableEq

def DRAFT_KEY : String := "user-form-draft"

/-- The two key-value draft stores (`localStorage` and IndexedDB). -/
structure DraftState where
  localStorage : String → Option RegFormValues
  indexedDB : String → Option RegFormValues

def storeSet (s : String → Option RegFormValues) (k : String) (v : RegFormValues) :
    String → Option RegFormValues :=
  fun q => if q = k then some v else s q

def storeDel (s : String → Option RegFormValues) (k : String) :
    String → Option RegFormValues :=
  fun q => if q = k then none else s q

/-- `persistDraft`: write the draft under `DRAFT_KEY` in both stores. -/
def persistDraft (st : DraftState) (v : RegFormValues) : DraftState :=
  ⟨storeSet st.localStorage DRAFT_KEY v, storeSet st.indexedDB DRAFT_KEY v⟩

/-- `clearDrafts`: remove `DRAFT_KEY` from both stores. -/
def clearDrafts (st : DraftState) : DraftState :=
  ⟨storeDel st.localStorage DRAFT_KEY, storeDel st.indexedDB DRAFT_KEY⟩

/-- The draft-load on mount: IndexedDB first, then `localStorage`
(`dbDraft || lsDraft`). -/
def loadDraft (st : DraftState) : Option RegFormValues :=
  match st.indexedDB DRAFT_KEY with
  | some v => some v
  | none => st.localStorage DRAFT_KEY

/-- Outcome of one `onSubmit` run: success (drafts cleared, redirect),
or failure with a Retry action that re-invokes `onSubmit` with the
recorded current form values. -/
inductive SubmitOutcome where
  | succeeded
  | failedRetry (retryValues : RegFormValues)

/-- `onSubmit` of `UserRegistrationForm`: `serverOk` is the outcome of
`submitToServer`; on success `clearDrafts` runs, on failure the stores
are left untouched. -/
def regOnSubmit (serverOk : Bool) (st : DraftState) (values : RegFormValues) :
    DraftState × SubmitOutcome :=
  if serverOk then (clearDrafts st, .succeeded)
  else (st, .failedRetry values)

/-- C9: if `submitToServer` fails, neither draft store is touched and
the Retry action re-invokes `onSubmit` with the unchanged current form
values (so retrying is the same as submitting directly); if it
succeeds, `clearDrafts` removes `DRAFT_KEY` from both stores and a
subsequent load finds no draft.  Saving then loading returns the saved
record. -/
theorem registration_draft_lifecycle :
    (∀ (st : DraftState) (v : RegFormValues),
      regOnSubmit false st v = (st, .failedRetry v)) ∧
    (∀ (st : DraftState) (v : RegFormValues),
      (regOnSubmit true st v).1.localStorage DRAFT_KEY = none ∧
      (regOnSubmit true st v).1.indexedDB DRAFT_KEY = none ∧
      loadDraft (regOnSubmit true st v).1 = none) ∧
    (∀ (ok : Bool) (st : DraftState) (v : RegFormValues),
      regOnSubmit ok (regOnSubmit false st v).1 v = regOnSubmit ok st v) ∧
    (∀ (st : DraftState) (v : RegFormValues), loadDraft (persistDraft st v) = some v) := by
  refine ⟨fun st v => rfl, fun st v => ?_, fun ok st v => rfl, fun st v => ?_⟩
  · refine ⟨?_, ?_, ?_⟩ <;> simp [regOnSubmit, clearDrafts, storeDel, loadDraft]
  · simp [persistDraft, storeSet, loadDraft]
